import Mathlib

/-!
Shallow embedding of the reconciliation and transfer-orchestration engine of
`dicom_query_compare.py` (dicom_mover repository).

Python integers are modelled as `Int`; Python dicts keyed by strings are
modelled as functions `String → Option _`; external network calls
(C-FIND queries, C-MOVE requests, wall-clock polling) are modelled as
explicit inputs: a list of poll observations stands for the completion
monitor's query loop, and a per-candidate environment records what the
remote/local image queries and move requests would return.
-/

namespace DicomMover

/-- One entry of `SeriesStabilityTracker.series_states`: the dict
`{'image_count': .., 'last_seen': .., 'stable_since': ..}` built by
`update_series`.  `stable_since` is nullable. -/
structure StabilityRecord where
  image_count : Int
  last_seen : String
  stable_since : Option String
  deriving DecidableEq, Repr

/-- The tracker's `series_states` dict: a finite map from string keys to
records, modelled as a function into `Option`. -/
def TrackerState : Type := String → Option StabilityRecord

/-- A tracker with no records (fresh start / empty `series_states`). -/
def emptyTracker : TrackerState := fun _ => none

/-- Embeds `SeriesStabilityTracker._make_key`: the f-string
`"{remote_node_name}|{study_uid}|{series_uid}"`. -/
def mkKey (remote_node_name study_uid series_uid : String) : String :=
  remote_node_name ++ "|" ++ study_uid ++ "|" ++ series_uid

/-- Embeds `SeriesStabilityTracker.update_series`.  `now` is the
`datetime.now().isoformat()` timestamp string.  Returns the stability
verdict together with the updated `series_states`.

On the equal-count branch the source runs
`state['stable_since'] = state.get('stable_since', now)`; since every record
created by this class carries the `stable_since` key, `dict.get` returns the
stored value (possibly `None`), so the field is left unchanged. -/
def update_series (s : TrackerState) (remote_node_name study_uid series_uid : String)
    (image_count : Int) (now : String) : Bool × TrackerState :=
  let key := mkKey remote_node_name study_uid series_uid
  match s key with
  | some r =>
      if r.image_count = image_count then
        (true, fun k => if k = key then some { r with last_seen := now } else s k)
      else
        (false, fun k => if k = key then some ⟨image_count, now, none⟩ else s k)
  | none =>
      (false, fun k => if k = key then some ⟨image_count, now, none⟩ else s k)

/-- Embeds `SeriesStabilityTracker.mark_transferred`:
`if key in dict: del dict[key]`.
When the key is absent the dict is unchanged, which coincides pointwise with
unconditionally mapping the key to `none`. -/
def mark_transferred (s : TrackerState) (remote_node_name study_uid series_uid : String) :
    TrackerState :=
  fun k => if k = mkKey remote_node_name study_uid series_uid then none else s k

/-- Repeated `update_series` calls on one key (one call per sync cycle),
collecting the returned stability verdicts. -/
def observe_sequence (s : TrackerState) (remote_node_name study_uid series_uid : String)
    (counts : List Int) (now : String) : List Bool × TrackerState :=
  match counts with
  | [] => ([], s)
  | c :: rest =>
      let step := update_series s remote_node_name study_uid series_uid c now
      let tail := observe_sequence step.2 remote_node_name study_uid series_uid rest now
      (step.1 :: tail.1, tail.2)

/-- Embeds `DicomSeries`: a series-level C-FIND result. -/
structure DicomSeries where
  series_uid : String
  series_number : String
  num_images : Int
  modality : String
  series_description : String
  deriving DecidableEq, Repr

/-- Embeds `DicomStudy`: a study-level C-FIND result (the mutable `series` list the
source attaches during comparison is pass-scoped output, not input, and is
not part of the record here). -/
structure DicomStudy where
  study_uid : String
  study_date : String
  patient_id : String
  patient_name : String
  study_description : String
  study_time : String
  num_images : Int
  deriving DecidableEq, Repr

/-- One element of `transfer_list`: `(study, series, local_image_count)`. -/
abbrev Candidate : Type := DicomStudy × DicomSeries × Int

/-- Embeds `local_series_dict = {s.series_uid: s.num_images for s in local_series_list}`
followed by `.get(uid, 0)`.  A dict comprehension keeps the last entry for a
duplicated key, hence the lookup searches the reversed list. -/
def local_series_lookup (locals : List DicomSeries) (uid : String) : Int :=
  match List.find? (fun s2 => s2.series_uid == uid) locals.reverse with
  | some s2 => s2.num_images
  | none => 0

/-- The body of the `for series in remote_series_list` loop of
`compare_series_and_filter`, acting on the accumulated
`(transfer_list, stability_tracker)` pair.  In order: the complete-series
skip, the empty-series skip, the few-missing-from-large-series skip, the
stability gate (which updates the tracker even when the verdict is
not-stable), then the `max_images` selection (`None` = default
all-incomplete-series mode).  When no tracker is supplied
(`stability_tracker is None`) the stability gate is bypassed. -/
def series_step (remote_node_name now : String) (max_images : Option Int)
    (study : DicomStudy) (locals : List DicomSeries)
    (acc : List Candidate × Option TrackerState) (s : DicomSeries) :
    List Candidate × Option TrackerState :=
  let lst := acc.1
  let tr := acc.2
  let local_image_count := local_series_lookup locals s.series_uid
  if local_image_count ≥ s.num_images then (lst, tr)
  else if s.num_images ≤ 0 then (lst, tr)
  else
    let missing_images := s.num_images - local_image_count
    if missing_images ≤ 3 ∧ s.num_images > 10 then (lst, tr)
    else
      let gate : Bool × Option TrackerState :=
        match tr with
        | some t =>
            let u := update_series t remote_node_name study.study_uid s.series_uid
              s.num_images now
            (u.1, some u.2)
        | none => (true, none)
      if ¬ gate.1 then (lst, gate.2)
      else
        let should_transfer := match max_images with
          | some m => decide (s.num_images ≤ m)
          | none => true
        if should_transfer then (lst ++ [(study, s, local_image_count)], gate.2)
        else (lst, gate.2)

/-- The inventory data one iteration of the per-study loop consumes: the
study plus the results of the remote and local series-level queries. -/
structure StudyQuery where
  study : DicomStudy
  remote_series : List DicomSeries
  local_series : List DicomSeries
  deriving DecidableEq, Repr

/-- Embeds `compare_series_and_filter`: iterate the studies, and inside each the
remote series list, threading `transfer_list` and the tracker.  (When a
study's remote series list is empty the source `continue`s before the local
query; the inner fold over `[]` is likewise a no-op.) -/
def compare_series_and_filter (remote_node_name now : String) (max_images : Option Int)
    (queries : List StudyQuery) (tr : Option TrackerState) :
    List Candidate × Option TrackerState :=
  queries.foldl
    (fun acc q =>
      q.remote_series.foldl
        (series_step remote_node_name now max_images q.study q.local_series) acc)
    (([] : List Candidate), tr)

/-- The loop of `wait_for_series_completion`.  `polls` is the sequence of
image counts the local series-level queries would observe, one per loop
iteration; an exhausted list is the `timeout` exit of the `while` loop.
State: `last_count` (initially 0) and `stable_count` (initially 0). -/
def wait_loop (expected_images : Int) (polls : List Int) (last_count : Int)
    (stable_count : Nat) : Bool :=
  match polls with
  | [] => false
  | current :: rest =>
      if current ≥ expected_images then true
      else if current = last_count then
        if stable_count + 1 ≥ 3 then
          if current > 0 then true else false
        else wait_loop expected_images rest current (stable_count + 1)
      else wait_loop expected_images rest current 0

/-- Embeds `wait_for_series_completion` with its initial state
`last_count = 0`, `stable_count = 0`. -/
def wait_for_series_completion (expected_images : Int) (polls : List Int) : Bool :=
  wait_loop expected_images polls 0 0

/-- What the external services would answer for one transfer candidate:
image-level C-FIND results on both nodes, the per-image C-MOVE outcomes,
and the series-level C-MOVE outcome. -/
structure TransferEnv where
  remote_image_uids : List String
  local_image_uids : List String
  move_image_result : String → Bool
  move_series_result : Bool

/-- The strategy decision of `transfer_series_sequential`:
`use_image_level and local_count > 0` and
`missing_images / series.num_images < 0.3`.  The float comparison is
rendered exactly as the rational inequality
`(num_images − local_count) * 10 < 3 * num_images`. -/
def use_image_transfer (use_image_level : Bool) (num_images local_count : Int) : Bool :=
  use_image_level && decide (local_count > 0)
    && decide ((num_images - local_count) * 10 < 3 * num_images)

/-- One candidate's transfer: returns `(success, used image-level strategy)`.
Image-level: missing uids are the remote uids absent from the local set, and
`success = (success_count == len(missing_image_uids))`.  Series-level:
success is the C-MOVE result.  (The subsequent
`wait_for_series_completion` call's result is discarded by the source.) -/
def transfer_one (use_image_level : Bool) (series : DicomSeries) (local_count : Int)
    (env : TransferEnv) : Bool × Bool :=
  if use_image_transfer use_image_level series.num_images local_count then
    let missing_uids :=
      env.remote_image_uids.filter (fun uid => !(env.local_image_uids.contains uid))
    let success_count := (missing_uids.filter env.move_image_result).length
    (decide (success_count = missing_uids.length), true)
  else
    (env.move_series_result, false)

/-- The counters `transfer_series_sequential` maintains across candidates. -/
structure TransferStats where
  transferred_images : Int
  transferred_series : Nat
  failed_series : Nat
  deriving DecidableEq, Repr

/-- The body of the `for (study, series, local_count) in transfer_list` loop:
on success add the series' full remote image count to `transferred_images`
and delete the series from the stability tracker; on failure increment
`failed_series` and move on. -/
def transfer_step (use_image_level : Bool) (remote_node_name : String)
    (acc : TransferStats × Option TrackerState)
    (item : Candidate × TransferEnv) : TransferStats × Option TrackerState :=
  let stats := acc.1
  let tr := acc.2
  let series := item.1.2.1
  let local_count := item.1.2.2
  let outcome := transfer_one use_image_level series local_count item.2
  if outcome.1 then
    let tr2 := match tr with
      | some t => some (mark_transferred t remote_node_name item.1.1.study_uid
          series.series_uid)
      | none => none
    ({ stats with
        transferred_images := stats.transferred_images + series.num_images,
        transferred_series := stats.transferred_series + 1 }, tr2)
  else
    ({ stats with failed_series := stats.failed_series + 1 }, tr)

/-- Embeds `transfer_series_sequential`, as the sequential fold of `transfer_step`
over the transfer list (each candidate paired with what the external
services would answer for it).  The source's return value is the final
`transferred_images`; the other counters are kept alongside it. -/
def transfer_series_sequential (use_image_level : Bool) (remote_node_name : String)
    (items : List (Candidate × TransferEnv)) (tr : Option TrackerState) :
    TransferStats × Option TrackerState :=
  items.foldl (transfer_step use_image_level remote_node_name)
    (⟨0, 0, 0⟩, tr)

/-- The continuous-mode delay decision at the end of `main`'s cycle loop:
`time.sleep(60)` when `transferred_images < 30`, else `time.sleep(1)`. -/
def cycle_sleep_seconds (transferred_images : Int) : Nat :=
  if transferred_images < 30 then 60 else 1

end DicomMover

namespace DicomMover

/-- Properties every emitted transfer candidate satisfies: it is incomplete,
non-empty, survives the few-missing-from-large-series skip, and respects the
`max_images` bound when one is set. -/
def emitted_inv (mx : Option Int) (c : Candidate) : Prop :=
  c.2.2 < c.2.1.num_images ∧ 0 < c.2.1.num_images ∧
    ¬(c.2.1.num_images - c.2.2 ≤ 3 ∧ c.2.1.num_images > 10) ∧
    ∀ m, mx = some m → c.2.1.num_images ≤ m

lemma mem_series_step (name now : String) (mx : Option Int) (study : DicomStudy)
    (locals : List DicomSeries) (acc : List Candidate × Option TrackerState)
    (s : DicomSeries) (c : Candidate)
    (h : c ∈ (series_step name now mx study locals acc s).1) :
    c ∈ acc.1 ∨ emitted_inv mx c := by
  obtain ⟨lst, tr⟩ := acc
  simp only [series_step] at h
  split at h
  · exact Or.inl h
  next h1 =>
    split at h
    · exact Or.inl h
    next h2 =>
      split at h
      next h3 => exact Or.inl h
      next h3 =>
        split at h
        · exact Or.inl h
        next h4 =>
          split at h
          next h5 =>
            rcases List.mem_append.mp h with hh | hh
            · exact Or.inl hh
            · right
              have hc : c = (study, s, local_series_lookup locals s.series_uid) := by
                simpa using hh
              subst hc
              refine ⟨by simpa using not_le.mp h1, by simpa using not_le.mp h2, h3, ?_⟩
              intro m hm
              subst hm
              exact of_decide_eq_true h5
          next h5 => exact Or.inl h

lemma mem_foldl_series_step (name now : String) (mx : Option Int) (study : DicomStudy)
    (locals : List DicomSeries) :
    ∀ (ss : List DicomSeries) (acc : List Candidate × Option TrackerState) (c : Candidate),
      c ∈ (ss.foldl (series_step name now mx study locals) acc).1 →
      c ∈ acc.1 ∨ emitted_inv mx c := by
  intro ss
  induction ss with
  | nil => intro acc c h; exact Or.inl h
  | cons s rest ih =>
      intro acc c h
      rw [List.foldl_cons] at h
      rcases ih (series_step name now mx study locals acc s) c h with h2 | h2
      · exact mem_series_step name now mx study locals acc s c h2
      · exact Or.inr h2

lemma mem_compare_aux (name now : String) (mx : Option Int) :
    ∀ (qs : List StudyQuery) (acc : List Candidate × Option TrackerState) (c : Candidate),
      c ∈ (qs.foldl
            (fun acc2 q =>
              q.remote_series.foldl
                (series_step name now mx q.study q.local_series) acc2) acc).1 →
      c ∈ acc.1 ∨ emitted_inv mx c := by
  intro qs
  induction qs with
  | nil => intro acc c h; exact Or.inl h
  | cons q rest ih =>
      intro acc c h
      rw [List.foldl_cons] at h
      rcases ih _ c h with h2 | h2
      · exact mem_foldl_series_step name now mx q.study q.local_series q.remote_series acc c h2
      · exact Or.inr h2

lemma mem_compare_series_and_filter (name now : String) (mx : Option Int)
    (qs : List StudyQuery) (tr : Option TrackerState) (c : Candidate)
    (h : c ∈ (compare_series_and_filter name now mx qs tr).1) : emitted_inv mx c := by
  unfold compare_series_and_filter at h
  rcases mem_compare_aux name now mx qs ([], tr) c h with h2 | h2
  · simp at h2
  · exact h2

lemma series_step_emit (name now : String) (mx : Option Int) (study : DicomStudy)
    (locals : List DicomSeries) (lst : List Candidate) (t : TrackerState) (s : DicomSeries)
    (h1 : local_series_lookup locals s.series_uid < s.num_images)
    (h2 : 0 < s.num_images)
    (h3 : ¬(s.num_images - local_series_lookup locals s.series_uid ≤ 3 ∧ s.num_images > 10))
    (h4 : (update_series t name study.study_uid s.series_uid s.num_images now).1 = true)
    (h5 : ∀ m, mx = some m → s.num_images ≤ m) :
    series_step name now mx study locals (lst, some t) s =
      (lst ++ [(study, s, local_series_lookup locals s.series_uid)],
       some (update_series t name study.study_uid s.series_uid s.num_images now).2) := by
  have h1n : ¬(local_series_lookup locals s.series_uid ≥ s.num_images) := by omega
  have h2n : ¬(s.num_images ≤ 0) := by omega
  cases mx with
  | none =>
      simp only [series_step]
      rw [if_neg h1n, if_neg h2n, if_neg h3]
      simp [h4]
  | some m =>
      have h5m : s.num_images ≤ m := h5 m rfl
      simp only [series_step]
      rw [if_neg h1n, if_neg h2n, if_neg h3]
      simp [h4, h5m]

lemma transferred_images_foldl (flag : Bool) (name : String) :
    ∀ (items : List (Candidate × TransferEnv)) (acc : TransferStats × Option TrackerState),
      (items.foldl (transfer_step flag name) acc).1.transferred_images =
        acc.1.transferred_images +
          (items.map (fun it =>
            if (transfer_one flag it.1.2.1 it.1.2.2 it.2).1 = true
            then it.1.2.1.num_images else 0)).sum := by
  intro items
  induction items with
  | nil => intro acc; simp
  | cons it rest ih =>
      intro acc
      rw [List.foldl_cons, ih, List.map_cons, List.sum_cons]
      have hstep : (transfer_step flag name acc it).1.transferred_images =
          acc.1.transferred_images +
            (if (transfer_one flag it.1.2.1 it.1.2.2 it.2).1 = true
             then it.1.2.1.num_images else 0) := by
        unfold transfer_step
        split <;> simp_all
      rw [hstep]
      ring

end DicomMover

namespace DicomMover

/-- C1: the tracker's observe operation (`update_series`) returns the
spec-defined verdicts — a first-ever observation of a key creates a record
and returns not-stable; an observation matching the stored count returns
stable; an observation with a different count resets the record (new count,
cleared `stable_since`) and returns not-stable — and observing counts
10, 10, 12, 12 on one key returns false, true, false, true. -/
theorem update_series_verdicts :
    (∀ (s : TrackerState) (n st se : String) (c : Int) (now : String),
        s (mkKey n st se) = none →
        (update_series s n st se c now).1 = false ∧
        (update_series s n st se c now).2 (mkKey n st se) = some ⟨c, now, none⟩) ∧
    (∀ (s : TrackerState) (n st se : String) (c : Int) (now : String) (r : StabilityRecord),
        s (mkKey n st se) = some r → r.image_count = c →
        (update_series s n st se c now).1 = true) ∧
    (∀ (s : TrackerState) (n st se : String) (c : Int) (now : String) (r : StabilityRecord),
        s (mkKey n st se) = some r → r.image_count ≠ c →
        (update_series s n st se c now).1 = false ∧
        (update_series s n st se c now).2 (mkKey n st se) = some ⟨c, now, none⟩) ∧
    (observe_sequence emptyTracker "node" "study" "series" [10, 10, 12, 12] "t").1
      = [false, true, false, true] := by
  refine ⟨?_, ?_, ?_, by decide⟩
  · intro s n st se c now h
    simp only [update_series, h]
    simp
  · intro s n st se c now r h h2
    simp only [update_series, h, h2]
    simp
  · intro s n st se c now r h h2
    simp only [update_series, h]
    rw [if_neg h2]
    simp

/-- C1 witness: the three verdict branches at concrete tracker states. -/
theorem update_series_verdicts_witness :
    ((update_series emptyTracker "n" "st" "se" 5 "t").1 = false ∧
      (update_series emptyTracker "n" "st" "se" 5 "t").2 (mkKey "n" "st" "se")
        = some ⟨5, "t", none⟩) ∧
    (update_series (fun k => if k = mkKey "n" "st" "se" then some ⟨5, "t", none⟩ else none)
      "n" "st" "se" 5 "u").1 = true ∧
    ((update_series (fun k => if k = mkKey "n" "st" "se" then some ⟨5, "t", none⟩ else none)
      "n" "st" "se" 7 "u").1 = false ∧
      (update_series (fun k => if k = mkKey "n" "st" "se" then some ⟨5, "t", none⟩ else none)
        "n" "st" "se" 7 "u").2 (mkKey "n" "st" "se") = some ⟨7, "u", none⟩) :=
  ⟨update_series_verdicts.1 emptyTracker "n" "st" "se" 5 "t" rfl,
   update_series_verdicts.2.1 _ "n" "st" "se" 5 "u" ⟨5, "t", none⟩ (by simp) rfl,
   update_series_verdicts.2.2.1 _ "n" "st" "se" 7 "u" ⟨5, "t", none⟩ (by simp) (by decide)⟩

/-- C2 counterexample: a stable series with remote count 20 and local count
19 (one missing image) is NOT included in the transfer list under the
default "all" mode (`max_images = none`) — the output is empty, refuting the
claim that "all" mode includes it. -/
theorem single_missing_all_mode_counterexample :
    (compare_series_and_filter "pacs" "t1" none
        [⟨⟨"stu1", "20240101", "p", "n", "x", "t", 20⟩,
          [⟨"ser1", "1", 20, "CT", "d"⟩], [⟨"ser1", "1", 19, "CT", "d"⟩]⟩]
        (some (fun k => if k = mkKey "pacs" "stu1" "ser1"
          then some ⟨20, "t0", none⟩ else none))).1 = [] := by
  decide

/-- C2 amended: a series with at most 3 missing images and more than 10
remote images (such as remote=20, local=19) is excluded under every mode —
the few-missing skip runs before mode filtering — while a 1-missing series
with at most 10 remote images (remote=8, local=7) is still included under
"all" mode. -/
theorem single_missing_excluded_every_mode :
    (∀ (name now : String) (mx : Option Int) (qs : List StudyQuery)
        (tr : Option TrackerState) (c : Candidate),
        c ∈ (compare_series_and_filter name now mx qs tr).1 →
        ¬(c.2.1.num_images - c.2.2 ≤ 3 ∧ c.2.1.num_images > 10)) ∧
    (compare_series_and_filter "pacs" "t1" none
        [⟨⟨"stu1", "20240101", "p", "n", "x", "t", 8⟩,
          [⟨"ser1", "1", 8, "CT", "d"⟩], [⟨"ser1", "1", 7, "CT", "d"⟩]⟩]
        (some (fun k => if k = mkKey "pacs" "stu1" "ser1"
          then some ⟨8, "t0", none⟩ else none))).1
      = [(⟨"stu1", "20240101", "p", "n", "x", "t", 8⟩, ⟨"ser1", "1", 8, "CT", "d"⟩, 7)] := by
  refine ⟨?_, by decide⟩
  intro name now mx qs tr c h
  exact (mem_compare_series_and_filter name now mx qs tr c h).2.2.1

/-- C2 witness: the exclusion applied to a concrete emitted candidate. -/
theorem single_missing_excluded_every_mode_witness :
    ¬(((⟨"stu1", "20240101", "p", "n", "x", "t", 8⟩, ⟨"ser1", "1", 8, "CT", "d"⟩, 7)
        : Candidate).2.1.num_images -
      ((⟨"stu1", "20240101", "p", "n", "x", "t", 8⟩, ⟨"ser1", "1", 8, "CT", "d"⟩, 7)
        : Candidate).2.2 ≤ 3 ∧
      ((⟨"stu1", "20240101", "p", "n", "x", "t", 8⟩, ⟨"ser1", "1", 8, "CT", "d"⟩, 7)
        : Candidate).2.1.num_images > 10) :=
  single_missing_excluded_every_mode.1 "pacs" "t1" none
    [⟨⟨"stu1", "20240101", "p", "n", "x", "t", 8⟩,
      [⟨"ser1", "1", 8, "CT", "d"⟩], [⟨"ser1", "1", 7, "CT", "d"⟩]⟩]
    (some (fun k => if k = mkKey "pacs" "stu1" "ser1" then some ⟨8, "t0", none⟩ else none))
    (⟨"stu1", "20240101", "p", "n", "x", "t", 8⟩, ⟨"ser1", "1", 8, "CT", "d"⟩, 7)
    (by decide)

/-- C3 counterexample: in bounded mode (`max_images = some 100`) a stable
series with remote count 20 and local count 19 is NOT selected — the output
is empty, refuting the claim that an explicit threshold overrides the
single-image suppression. -/
theorem bounded_mode_single_missing_counterexample :
    (compare_series_and_filter "pacs" "t1" (some 100)
        [⟨⟨"stu1", "20240101", "p", "n", "x", "t", 20⟩,
          [⟨"ser1", "1", 20, "CT", "d"⟩], [⟨"ser1", "1", 19, "CT", "d"⟩]⟩]
        (some (fun k => if k = mkKey "pacs" "stu1" "ser1"
          then some ⟨20, "t0", none⟩ else none))).1 = [] := by
  decide

/-- C3 amended: in bounded mode every stable incomplete series with remote
count at most the threshold is selected UNLESS it has at most 3 missing
images and more than 10 remote images — the explicit threshold does not
override that suppression, which holds for every emitted candidate. -/
theorem bounded_mode_selection :
    (∀ (name now : String) (m : Int) (study : DicomStudy) (s : DicomSeries)
        (locals : List DicomSeries) (t : TrackerState),
        local_series_lookup locals s.series_uid < s.num_images →
        0 < s.num_images →
        ¬(s.num_images - local_series_lookup locals s.series_uid ≤ 3 ∧ s.num_images > 10) →
        (update_series t name study.study_uid s.series_uid s.num_images now).1 = true →
        s.num_images ≤ m →
        (compare_series_and_filter name now (some m) [⟨study, [s], locals⟩] (some t)).1
          = [(study, s, local_series_lookup locals s.series_uid)]) ∧
    (∀ (name now : String) (m : Int) (qs : List StudyQuery) (tr : Option TrackerState)
        (c : Candidate),
        c ∈ (compare_series_and_filter name now (some m) qs tr).1 →
        ¬(c.2.1.num_images - c.2.2 ≤ 3 ∧ c.2.1.num_images > 10)) := by
  constructor
  · intro name now m study s locals t h1 h2 h3 h4 h5
    simp only [compare_series_and_filter, List.foldl]
    rw [series_step_emit name now (some m) study locals [] t s h1 h2 h3 h4
      (fun m2 hm => by injection hm with hm2; omega)]
    simp
  · intro name now m qs tr c h
    exact (mem_compare_series_and_filter name now (some m) qs tr c h).2.2.1

/-- C3 witness: bounded mode (threshold 100) selecting a stable 8-image
series with local count 7. -/
theorem bounded_mode_selection_witness :
    (compare_series_and_filter "pacs" "t1" (some 100)
        [⟨⟨"stu1", "20240101", "p", "n", "x", "t", 8⟩,
          [⟨"ser1", "1", 8, "CT", "d"⟩], [⟨"ser1", "1", 7, "CT", "d"⟩]⟩]
        (some (fun k => if k = mkKey "pacs" "stu1" "ser1"
          then some ⟨8, "t0", none⟩ else none))).1
      = [(⟨"stu1", "20240101", "p", "n", "x", "t", 8⟩, ⟨"ser1", "1", 8, "CT", "d"⟩,
          local_series_lookup [⟨"ser1", "1", 7, "CT", "d"⟩] "ser1")] :=
  bounded_mode_selection.1 "pacs" "t1" 100
    ⟨"stu1", "20240101", "p", "n", "x", "t", 8⟩ ⟨"ser1", "1", 8, "CT", "d"⟩
    [⟨"ser1", "1", 7, "CT", "d"⟩]
    (fun k => if k = mkKey "pacs" "stu1" "ser1" then some ⟨8, "t0", none⟩ else none)
    (by decide) (by decide) (by decide) (by decide) (by decide)

end DicomMover

namespace DicomMover

/-- C4 counterexample: one study with two stable incomplete series of
remote counts 5 and 50 — under the default "all" mode and under bounded
mode (threshold 100) BOTH series are selected; no mode keeps only the
5-image series, refuting the smallest-only behaviour. -/
theorem smallest_only_counterexample :
    (compare_series_and_filter "pacs" "t1" none
        [⟨⟨"stu2", "20240101", "p", "n", "x", "t", 55⟩,
          [⟨"serS", "1", 5, "CT", "d"⟩, ⟨"serL", "2", 50, "CT", "d"⟩], []⟩]
        (some (fun k =>
          if k = mkKey "pacs" "stu2" "serS" then some ⟨5, "t0", none⟩
          else if k = mkKey "pacs" "stu2" "serL" then some ⟨50, "t0", none⟩
          else none))).1
      = [(⟨"stu2", "20240101", "p", "n", "x", "t", 55⟩, ⟨"serS", "1", 5, "CT", "d"⟩, 0),
         (⟨"stu2", "20240101", "p", "n", "x", "t", 55⟩, ⟨"serL", "2", 50, "CT", "d"⟩, 0)] ∧
    (compare_series_and_filter "pacs" "t1" (some 100)
        [⟨⟨"stu2", "20240101", "p", "n", "x", "t", 55⟩,
          [⟨"serS", "1", 5, "CT", "d"⟩, ⟨"serL", "2", 50, "CT", "d"⟩], []⟩]
        (some (fun k =>
          if k = mkKey "pacs" "stu2" "serS" then some ⟨5, "t0", none⟩
          else if k = mkKey "pacs" "stu2" "serL" then some ⟨50, "t0", none⟩
          else none))).1
      = [(⟨"stu2", "20240101", "p", "n", "x", "t", 55⟩, ⟨"serS", "1", 5, "CT", "d"⟩, 0),
         (⟨"stu2", "20240101", "p", "n", "x", "t", 55⟩, ⟨"serL", "2", 50, "CT", "d"⟩, 0)] := by
  constructor <;> decide

/-- C4 amended: the code has no smallest-only mode — under any
`max_images` mode admitting both, a study with two stable incomplete series
that both pass the pre-filters yields BOTH as transfer candidates (no
per-study fewest-remote-images reduction). -/
theorem no_smallest_only_reduction :
    ∀ (name now : String) (mx : Option Int) (study : DicomStudy) (sA sB : DicomSeries)
      (locals : List DicomSeries) (t : TrackerState),
      local_series_lookup locals sA.series_uid < sA.num_images →
      0 < sA.num_images →
      ¬(sA.num_images - local_series_lookup locals sA.series_uid ≤ 3 ∧ sA.num_images > 10) →
      (update_series t name study.study_uid sA.series_uid sA.num_images now).1 = true →
      (∀ m, mx = some m → sA.num_images ≤ m) →
      local_series_lookup locals sB.series_uid < sB.num_images →
      0 < sB.num_images →
      ¬(sB.num_images - local_series_lookup locals sB.series_uid ≤ 3 ∧ sB.num_images > 10) →
      (update_series
          (update_series t name study.study_uid sA.series_uid sA.num_images now).2
          name study.study_uid sB.series_uid sB.num_images now).1 = true →
      (∀ m, mx = some m → sB.num_images ≤ m) →
      (compare_series_and_filter name now mx [⟨study, [sA, sB], locals⟩] (some t)).1
        = [(study, sA, local_series_lookup locals sA.series_uid),
           (study, sB, local_series_lookup locals sB.series_uid)] := by
  intro name now mx study sA sB locals t hA1 hA2 hA3 hA4 hA5 hB1 hB2 hB3 hB4 hB5
  simp only [compare_series_and_filter, List.foldl]
  rw [series_step_emit name now mx study locals [] t sA hA1 hA2 hA3 hA4 hA5]
  rw [series_step_emit name now mx study locals _ _ sB hB1 hB2 hB3 hB4 hB5]
  simp

/-- C4 witness: the 5-image and 50-image stable series of one study both
selected under "all" mode. -/
theorem no_smallest_only_reduction_witness :
    (compare_series_and_filter "pacs" "t1" none
        [⟨⟨"stu2", "20240101", "p", "n", "x", "t", 55⟩,
          [⟨"serS", "1", 5, "CT", "d"⟩, ⟨"serL", "2", 50, "CT", "d"⟩], []⟩]
        (some (fun k =>
          if k = mkKey "pacs" "stu2" "serS" then some ⟨5, "t0", none⟩
          else if k = mkKey "pacs" "stu2" "serL" then some ⟨50, "t0", none⟩
          else none))).1
      = [(⟨"stu2", "20240101", "p", "n", "x", "t", 55⟩, ⟨"serS", "1", 5, "CT", "d"⟩,
          local_series_lookup [] "serS"),
         (⟨"stu2", "20240101", "p", "n", "x", "t", 55⟩, ⟨"serL", "2", 50, "CT", "d"⟩,
          local_series_lookup [] "serL")] :=
  no_smallest_only_reduction "pacs" "t1" none
    ⟨"stu2", "20240101", "p", "n", "x", "t", 55⟩
    ⟨"serS", "1", 5, "CT", "d"⟩ ⟨"serL", "2", 50, "CT", "d"⟩ []
    (fun k =>
      if k = mkKey "pacs" "stu2" "serS" then some ⟨5, "t0", none⟩
      else if k = mkKey "pacs" "stu2" "serL" then some ⟨50, "t0", none⟩
      else none)
    (by decide) (by decide) (by decide) (by decide) (by simp)
    (by decide) (by decide) (by decide) (by decide) (by simp)

/-- C5: `mark_transferred` deletes the key's record unconditionally, is
idempotent, is a no-op on an absent key, and a subsequent observe on the
key behaves as a brand-new first sighting (returns not-stable and creates
a fresh record). -/
theorem mark_transferred_spec :
    (∀ (s : TrackerState) (n st se : String),
        mark_transferred s n st se (mkKey n st se) = none) ∧
    (∀ (s : TrackerState) (n st se : String),
        mark_transferred (mark_transferred s n st se) n st se = mark_transferred s n st se) ∧
    (∀ (s : TrackerState) (n st se : String),
        s (mkKey n st se) = none → mark_transferred s n st se = s) ∧
    (∀ (s : TrackerState) (n st se : String) (c : Int) (now : String),
        (update_series (mark_transferred s n st se) n st se c now).1 = false ∧
        (update_series (mark_transferred s n st se) n st se c now).2 (mkKey n st se)
          = some ⟨c, now, none⟩) := by
  refine ⟨?_, ?_, ?_, ?_⟩
  · intro s n st se
    simp [mark_transferred]
  · intro s n st se
    funext k
    by_cases hk : k = mkKey n st se <;> simp [mark_transferred, hk]
  · intro s n st se h
    funext k
    by_cases hk : k = mkKey n st se
    · subst hk
      simp [mark_transferred, h]
    · simp [mark_transferred, hk]
  · intro s n st se c now
    have hnone : mark_transferred s n st se (mkKey n st se) = none := by
      simp [mark_transferred]
    simp only [update_series, hnone]
    simp

/-- C5 witness: deleting an absent key from the empty tracker is a no-op. -/
theorem mark_transferred_spec_witness :
    mark_transferred emptyTracker "n" "st" "se" = emptyTracker :=
  mark_transferred_spec.2.2.1 emptyTracker "n" "st" "se" rfl

/-- C6: the completion monitor returns success the moment an observed count
reaches the expected count; a count unchanged across 3 consecutive polls
yields success when it is positive and failure when it is 0; and an
exhausted poll budget (timeout) yields failure. -/
theorem wait_for_series_completion_spec :
    (∀ (e current : Int) (rest : List Int) (last : Int) (stable : Nat),
        current ≥ e → wait_loop e (current :: rest) last stable = true) ∧
    (∀ (e : Int) (polls : List Int), 0 < e →
        wait_for_series_completion e (0 :: 0 :: 0 :: polls) = false) ∧
    (∀ (e c : Int) (polls : List Int), 0 < c → c < e →
        wait_for_series_completion e (c :: c :: c :: c :: polls) = true) ∧
    (∀ (e last : Int) (stable : Nat), wait_loop e [] last stable = false) := by
  refine ⟨?_, ?_, ?_, ?_⟩
  · intro e current rest last stable h
    simp [wait_loop, h]
  · intro e polls h
    have h0 : ¬ ((0:Int) ≥ e) := by omega
    simp [wait_for_series_completion, wait_loop, h0]
  · intro e c polls h1 h2
    have hge : ¬ (c ≥ e) := by omega
    have hc0 : ¬ (c = (0:Int)) := by omega
    simp [wait_for_series_completion, wait_loop, hge, hc0, h1]
  · intro e last stable
    simp [wait_loop]

/-- C6 witness: the four exits at concrete poll sequences. -/
theorem wait_for_series_completion_spec_witness :
    wait_loop 5 [7] 2 1 = true ∧
    wait_for_series_completion 5 [0, 0, 0] = false ∧
    wait_for_series_completion 9 [4, 4, 4, 4] = true ∧
    wait_loop 9 [] 3 1 = false :=
  ⟨wait_for_series_completion_spec.1 5 7 [] 2 1 (by decide),
   wait_for_series_completion_spec.2.1 5 [] (by decide),
   wait_for_series_completion_spec.2.2.1 9 4 [] (by decide) (by decide),
   wait_for_series_completion_spec.2.2.2 9 3 1⟩

/-- C7: the executor uses the image-level strategy exactly when the
image-level flag is on and the locally-present fraction exceeds 70% of the
remote count (7·remote < 10·local, i.e. strictly less than 30% missing);
otherwise — including exactly 30% missing — it requests the whole series. -/
theorem image_level_strategy_iff :
    ∀ (use_image_level : Bool) (series : DicomSeries) (local_count : Int)
      (env : TransferEnv), 0 < series.num_images →
      ((transfer_one use_image_level series local_count env).2 = true ↔
        (use_image_level = true ∧ 7 * series.num_images < 10 * local_count)) := by
  intro flag series lc env hnum
  have h2 : (transfer_one flag series lc env).2
      = use_image_transfer flag series.num_images lc := by
    unfold transfer_one
    split <;> simp_all
  rw [h2]
  unfold use_image_transfer
  simp only [Bool.and_eq_true, decide_eq_true_eq]
  constructor
  · rintro ⟨⟨hf, _⟩, hlt⟩
    exact ⟨hf, by omega⟩
  · rintro ⟨hf, hlt⟩
    exact ⟨⟨hf, by omega⟩, by omega⟩

/-- C7 witness: a 10-image series with 8 present locally (20% missing). -/
theorem image_level_strategy_iff_witness :
    (0:Int) < (⟨"s", "1", 10, "CT", "d"⟩ : DicomSeries).num_images ∧
    ((transfer_one true ⟨"s", "1", 10, "CT", "d"⟩ 8
        ⟨[], [], fun _ => true, true⟩).2 = true ↔
      (true = true ∧ 7 * (⟨"s", "1", 10, "CT", "d"⟩ : DicomSeries).num_images < 10 * 8)) :=
  ⟨by decide,
   image_level_strategy_iff true ⟨"s", "1", 10, "CT", "d"⟩ 8
     ⟨[], [], fun _ => true, true⟩ (by decide)⟩

end DicomMover

namespace DicomMover

/-- C8 counterexample: an image-level transfer with 2 missing images of
which exactly 1 per-image move succeeds yields `success = false` and is
counted as a failed series (stats 0 images, 0 succeeded, 1 failed) —
refuting "reported as a fractional success, not escalated to a hard
failure". -/
theorem incomplete_image_level_counterexample :
    transfer_one true ⟨"ser", "1", 10, "CT", "d"⟩ 8
        ⟨["i1", "i2", "i3", "i4", "i5", "i6", "i7", "i8", "i9", "i10"],
         ["i1", "i2", "i3", "i4", "i5", "i6", "i7", "i8"],
         fun uid => uid == "i9", false⟩ = (false, true) ∧
    (transfer_series_sequential true "pacs"
        [((⟨"stu", "20240101", "p", "n", "x", "t", 10⟩, ⟨"ser", "1", 10, "CT", "d"⟩, 8),
          ⟨["i1", "i2", "i3", "i4", "i5", "i6", "i7", "i8", "i9", "i10"],
           ["i1", "i2", "i3", "i4", "i5", "i6", "i7", "i8"],
           fun uid => uid == "i9", false⟩)] none).1
      = ⟨0, 0, 1⟩ := by
  constructor <;> decide

/-- C8 amended: when some but not all per-image moves of an image-level
transfer succeed, the candidate's outcome is `false` (success requires
every missing image to succeed) and it is counted as one failed series —
contributing nothing to the transferred-image total — while the batch
continues with the remaining candidates. -/
theorem incomplete_image_level_reported_failed :
    ∀ (flag : Bool) (name : String) (study : DicomStudy) (series : DicomSeries)
      (local_count : Int) (env : TransferEnv) (rest : List (Candidate × TransferEnv))
      (tr : Option TrackerState),
      use_image_transfer flag series.num_images local_count = true →
      0 < ((env.remote_image_uids.filter
            (fun uid => !(env.local_image_uids.contains uid))).filter
              env.move_image_result).length →
      ((env.remote_image_uids.filter
          (fun uid => !(env.local_image_uids.contains uid))).filter
            env.move_image_result).length <
        (env.remote_image_uids.filter
          (fun uid => !(env.local_image_uids.contains uid))).length →
      (transfer_one flag series local_count env).1 = false ∧
      transfer_series_sequential flag name (((study, series, local_count), env) :: rest) tr
        = rest.foldl (transfer_step flag name) (⟨0, 0, 1⟩, tr) := by
  intro flag name study series lc env rest tr hflag hpos hlt
  have hne : ((env.remote_image_uids.filter
        (fun uid => !(env.local_image_uids.contains uid))).filter
          env.move_image_result).length ≠
      (env.remote_image_uids.filter
        (fun uid => !(env.local_image_uids.contains uid))).length := Nat.ne_of_lt hlt
  have hone : (transfer_one flag series lc env).1 = false := by
    unfold transfer_one
    rw [if_pos hflag]
    exact decide_eq_false hne
  refine ⟨hone, ?_⟩
  rw [transfer_series_sequential, List.foldl_cons]
  have hstep : transfer_step flag name (⟨0, 0, 0⟩, tr)
      ((study, series, lc), env) = (⟨0, 0, 1⟩, tr) := by
    unfold transfer_step
    simp [hone]
  rw [hstep]

/-- C8 witness: 2 missing images, one per-image success. -/
theorem incomplete_image_level_reported_failed_witness :
    (transfer_one true ⟨"ser", "1", 10, "CT", "d"⟩ 8
        ⟨["i1", "i2", "i3", "i4", "i5", "i6", "i7", "i8", "i9", "i10"],
         ["i1", "i2", "i3", "i4", "i5", "i6", "i7", "i8"],
         fun uid => uid == "i10", false⟩).1 = false ∧
    transfer_series_sequential true "node"
        [((⟨"stu", "20240101", "p", "n", "x", "t", 10⟩, ⟨"ser", "1", 10, "CT", "d"⟩, 8),
          ⟨["i1", "i2", "i3", "i4", "i5", "i6", "i7", "i8", "i9", "i10"],
           ["i1", "i2", "i3", "i4", "i5", "i6", "i7", "i8"],
           fun uid => uid == "i10", false⟩)] none
      = List.foldl (transfer_step true "node") (⟨0, 0, 1⟩, none) [] :=
  incomplete_image_level_reported_failed true "node"
    ⟨"stu", "20240101", "p", "n", "x", "t", 10⟩ ⟨"ser", "1", 10, "CT", "d"⟩ 8
    ⟨["i1", "i2", "i3", "i4", "i5", "i6", "i7", "i8", "i9", "i10"],
     ["i1", "i2", "i3", "i4", "i5", "i6", "i7", "i8"],
     fun uid => uid == "i10", false⟩ [] none
    (by decide) (by decide) (by decide)

/-- C9: at the end of a continuous-mode cycle, at least 30 transferred
images gives the short 1-second pause, fewer than 30 gives the fixed
60-second wait. -/
theorem cycle_delay_spec :
    ∀ n : Int, (30 ≤ n → cycle_sleep_seconds n = 1) ∧
      (n < 30 → cycle_sleep_seconds n = 60) := by
  intro n
  constructor
  · intro h
    rw [cycle_sleep_seconds, if_neg (by omega)]
  · intro h
    rw [cycle_sleep_seconds, if_pos h]

/-- C9 witness: the two branches at 42 and 3 transferred images. -/
theorem cycle_delay_spec_witness :
    cycle_sleep_seconds 42 = 1 ∧ cycle_sleep_seconds 3 = 60 :=
  ⟨(cycle_delay_spec 42).1 (by decide), (cycle_delay_spec 3).2 (by decide)⟩

/-- C10 (implicit): the per-cycle transferred-image count is the sum of the
FULL remote image counts of the successfully requested series — independent
of how many images were missing or requested — so one successful 30-image
series with a single missing image already counts as 30 images and triggers
the immediate next cycle. -/
theorem transferred_count_is_full_remote_sum :
    (∀ (flag : Bool) (name : String) (items : List (Candidate × TransferEnv))
        (tr : Option TrackerState),
        (transfer_series_sequential flag name items tr).1.transferred_images =
          (items.map (fun it =>
            if (transfer_one flag it.1.2.1 it.1.2.2 it.2).1 = true
            then it.1.2.1.num_images else 0)).sum) ∧
    (transfer_series_sequential false "pacs"
        [((⟨"stu", "20240101", "p", "n", "x", "t", 30⟩, ⟨"ser", "1", 30, "CT", "d"⟩, 29),
          ⟨[], [], fun _ => false, true⟩)] none).1.transferred_images = 30 ∧
    cycle_sleep_seconds 30 = 1 := by
  refine ⟨?_, by decide, by decide⟩
  intro flag name items tr
  rw [transfer_series_sequential, transferred_images_foldl]
  simp

end DicomMover
